import Mathlib

/-!
Verification of the Proximity Resolution Engine of the
Nigerian Health Infrastructure Engine (src/app.py).

The engine logic of the source is embedded shallowly:

* `load_data`       — src/app.py lines 43-53: reads the facility table and
  drops rows with missing latitude or longitude (`df.dropna`).
* `get_coordinates` — lines 59-67: geocoding; returns `(lat, lon)` on a
  match and `(None, None)` on no match or any provider exception.
* `get_drive_time`  — lines 69-82: routing; converts the provider summary
  (duration seconds, distance meters) to minutes and kilometers, and
  returns `(None, None)` on any provider failure.
* the find-button handler — lines 198-242: geocode the user location,
  filter the table by state (`scopedLookup`), compute geodesic distances,
  `sort_values('geo_dist').head(5)` (`rank` / `top_5`), and display each
  row with drive-time enrichment when an API key is supplied.

External effects are made explicit parameters: the geocoding provider's
response is a `GeocodeOutcome`, the routing provider's response per
facility is a `RouteOutcome`, and the geodesic distance function
(`geopy.distance.geodesic(...).km`, an external library computation) is an
uninterpreted function argument `ℚ × ℚ → ℚ → ...`.  Floats are modelled
as rationals.  Python truthiness of an optional float (`if u_lat:`,
`if drive_mins:`) is `pyTruthy`: falsy exactly on `None` and `0.0`.
-/

/-- One raw row of the facility CSV, after `usecols` projection.  A missing
latitude or longitude cell (NaN after `read_csv`) is `none`. -/
structure RawRecord where
  facility_name : String
  facility_level : String
  ownership : String
  ward : String
  lga : String
  state : String
  latitude : Option ℚ
  longitude : Option ℚ
deriving DecidableEq

/-- A facility as seen by the engine after loading: both coordinates are
present (but, as `load_data` shows, not range-checked). -/
structure Facility where
  facility_name : String
  facility_level : String
  ownership : String
  ward : String
  lga : String
  state : String
  latitude : ℚ
  longitude : ℚ
deriving DecidableEq

/-- src/app.py lines 48-50: `pd.read_csv(..., usecols=cols)` followed by
`df.dropna(subset=['latitude', 'longitude'])`.  Rows whose latitude or
longitude is missing are dropped; all other rows are kept in order.  No
other validation is performed. -/
def load_data (rows : List RawRecord) : List Facility :=
  rows.filterMap fun r =>
    match r.latitude, r.longitude with
    | some lat, some lon =>
        some ⟨r.facility_name, r.facility_level, r.ownership,
              r.ward, r.lga, r.state, lat, lon⟩
    | _, _ => none

/-- The spec's invariant "within valid Earth-coordinate ranges"
(§3 Facility): latitude in [-90, 90], longitude in [-180, 180].  This
predicate follows the spec's words; it has no counterpart in the source. -/
def validEarthCoords (f : Facility) : Prop :=
  -90 ≤ f.latitude ∧ f.latitude ≤ 90 ∧ -180 ≤ f.longitude ∧ f.longitude ≤ 180

instance (f : Facility) : Decidable (validEarthCoords f) := by
  unfold validEarthCoords; infer_instance

/-- Python truthiness of an optional float: `None` and `0.0` are falsy,
every other float is truthy.  This is the test used by `if u_lat:`
(line 202) and `if drive_mins:` (line 232). -/
def pyTruthy : Option ℚ → Bool
  | none => false
  | some x => x != 0

/-- Python truthiness of a string: the empty string is falsy.  This is the
test `if user_api_key:` (line 222); `st.text_input` yields `""` when the
user supplies no key. -/
def strTruthy (s : String) : Bool := s != ""

/-- Response of the external geocoding provider (Nominatim) for one query:
a best-match coordinate, no match (`location is None`), or an exception. -/
inductive GeocodeOutcome
  | found (lat lon : ℚ)
  | noMatch
  | providerError
deriving DecidableEq

/-- src/app.py lines 59-67: `get_coordinates`.  On a match, returns the
location's latitude and longitude; on no match or any exception (the bare
`except:` catches everything), returns `(None, None)`.  Total: never
propagates an exception. -/
def get_coordinates : GeocodeOutcome → Option ℚ × Option ℚ
  | .found lat lon => (some lat, some lon)
  | .noMatch => (none, none)
  | .providerError => (none, none)

/-- Response of the external routing provider (openrouteservice) for one
origin/target pair: a route summary carrying duration in seconds and
distance in meters, or any failure (auth error, no route, network error,
malformed response — all collapsed by the bare `except:`). -/
inductive RouteOutcome
  | route (durationSecs distanceMeters : ℚ)
  | providerFailure
deriving DecidableEq

/-- src/app.py lines 69-82: `get_drive_time`.  On success, converts the
summary to `(duration/60 minutes, distance/1000 km)`; on any provider
failure returns `(None, None)`.  Total: never propagates an exception. -/
def get_drive_time : RouteOutcome → Option ℚ × Option ℚ
  | .route d m => (some (d / 60), some (m / 1000))
  | .providerFailure => (none, none)

/-- src/app.py line 206: `candidates = data[data['state'] == confirm_state]`.
Keeps exactly the rows whose `state` equals the queried region, by exact
(case-sensitive) string equality, preserving order. -/
def scopedLookup (region : String) (data : List Facility) : List Facility :=
  data.filter fun f => f.state == region

/-- A candidate together with its computed `geo_dist` column
(src/app.py lines 211-214). -/
structure Ranked where
  facility : Facility
  geo_dist : ℚ
deriving DecidableEq

/-- The sort key of `sort_values('geo_dist')`: ascending `geo_dist`. -/
def distLE (a b : Ranked) : Prop := a.geo_dist ≤ b.geo_dist

instance : DecidableRel distLE := fun a b =>
  inferInstanceAs (Decidable (a.geo_dist ≤ b.geo_dist))

instance : IsTotal Ranked distLE := ⟨fun a b => le_total a.geo_dist b.geo_dist⟩

instance : IsTrans Ranked distLE := ⟨fun _ _ _ h h2 => le_trans h h2⟩

/-- src/app.py lines 211-214: the `geo_dist` column — for each candidate
row, the geodesic distance in km from the user's coordinates to the row's
coordinates.  `geodesic` abstracts `geopy.distance.geodesic(a, b).km`. -/
def computeDistances (geodesic : ℚ × ℚ → ℚ × ℚ → ℚ) (origin : ℚ × ℚ)
    (cands : List Facility) : List Ranked :=
  cands.map fun f => ⟨f, geodesic origin (f.latitude, f.longitude)⟩

/-- src/app.py line 216, `candidates.sort_values('geo_dist')`, modelled as
a comparison sort ascending by `geo_dist`.  The properties proved below
(length, sortedness, membership) hold of every comparison sort; the order
of rows with EQUAL `geo_dist` is NOT treated as source-faithful, because
`sort_values` defaults to `kind='quicksort'`, which pandas documents as
not stable. -/
def sortByDist (l : List Ranked) : List Ranked :=
  l.insertionSort distLE

/-- Semantics of pandas `DataFrame.head(n)` on an `n : ℤ` argument:
for `n ≥ 0` the first `n` rows, for `n < 0` all rows but the last `|n|`
(i.e. `df[:n]`). -/
def phead (n : ℤ) (l : List Ranked) : List Ranked :=
  if 0 ≤ n then l.take n.toNat
  else l.take (l.length - (-n).toNat)

/-- The ranking operation of src/app.py lines 211-216, generalized over the
result count that line 216 fixes to 5:
`candidates.sort_values('geo_dist').head(count)` applied to the
distance-annotated candidates. -/
def rank (geodesic : ℚ × ℚ → ℚ × ℚ → ℚ) (origin : ℚ × ℚ)
    (cands : List Facility) (count : ℤ) : List Ranked :=
  phead count (sortByDist (computeDistances geodesic origin cands))

/-- src/app.py line 216: `top_5 = candidates.sort_values('geo_dist').head(5)`. -/
def top_5 (geodesic : ℚ × ℚ → ℚ × ℚ → ℚ) (origin : ℚ × ℚ)
    (cands : List Facility) : List Ranked :=
  rank geodesic origin cands 5

/-- src/app.py lines 221-227: per ranked row, `drive_mins, drive_km` start
as `(None, None)` and are overwritten by `get_drive_time` only when the
API key is truthy (non-empty). -/
def enrich (user_api_key : String) (route : RouteOutcome) : Option ℚ × Option ℚ :=
  if strTruthy user_api_key then get_drive_time route else (none, none)

/-- What the expander of one ranked row shows (src/app.py lines 229-237):
either the drive-time metrics, or the straight-line `geo_dist` with
"Traffic data disabled". -/
inductive Shown
  | drive (mins km : Option ℚ)
  | straight (geoDist : ℚ)
deriving DecidableEq

/-- src/app.py lines 220-237, the body of the per-row display loop:
enrichment, then `if drive_mins:` — the drive metrics are shown when
`drive_mins` is truthy, otherwise the straight-line distance computed at
ranking time is shown unchanged. -/
def rowDisplay (user_api_key : String) (route : RouteOutcome) (r : Ranked) :
    Facility × Shown :=
  let dmdk := enrich user_api_key route
  if pyTruthy dmdk.1 then (r.facility, .drive dmdk.1 dmdk.2)
  else (r.facility, .straight r.geo_dist)

/-- Outcome of one press of the find button (src/app.py lines 198-242):
the "Address not found" error (line 242), the "No facilities found in this
state" error (line 209), or the displayed list of the five nearest
facilities.  Every outcome is a rendered page, never a crash. -/
inductive FindOutcome
  | addressNotFound
  | noFacilitiesInState
  | results (entries : List (Facility × Shown))
deriving DecidableEq

/-- src/app.py lines 198-242: the find-button handler.
`u_lat, u_lon = get_coordinates(...)`; `if u_lat:` tests TRUTHINESS of the
latitude (line 202), so `None` and `0.0` both take the "Address not found"
branch; otherwise the candidates are scoped to the confirmed state,
an empty scope yields the no-facilities error, and otherwise the top five
by geodesic distance are displayed row by row.  `routeFor` gives the
routing provider's response for each facility (the per-row call of
line 223). -/
def find_handler (geo : GeocodeOutcome) (geodesic : ℚ × ℚ → ℚ × ℚ → ℚ)
    (data : List Facility) (confirm_state : String) (user_api_key : String)
    (routeFor : Facility → RouteOutcome) : FindOutcome :=
  let c := get_coordinates geo
  if pyTruthy c.1 then
    -- here c.1 = some u_lat with u_lat ≠ 0; c.2 is the matching longitude
    let u_lat := c.1.getD 0
    let u_lon := c.2.getD 0
    let candidates := scopedLookup confirm_state data
    if candidates.isEmpty then .noFacilitiesInState
    else .results ((top_5 geodesic (u_lat, u_lon) candidates).map
      fun r => rowDisplay user_api_key (routeFor r.facility) r)
  else .addressNotFound

/-! Concrete inputs used by witnesses and counterexamples. -/

/-- A concrete distance function for witnesses: the candidate's latitude
(chosen free of rational arithmetic so that the kernel can evaluate it). -/
def latDist : ℚ × ℚ → ℚ × ℚ → ℚ := fun _ p => p.1

/-- Concrete facility used in witnesses. -/
def wFacA : Facility := ⟨"A", "Primary", "Public", "w", "l", "Oyo", 1, 1⟩

/-- Concrete facility used in witnesses. -/
def wFacB : Facility := ⟨"B", "Primary", "Public", "w", "l", "Oyo", 2, 2⟩

/-- Concrete facility used in witnesses. -/
def wFacC : Facility := ⟨"C", "Secondary", "Private", "w", "l", "Oyo", 3, 3⟩

/-! Theorems settling the claims. -/

/-- Claim C1: for every origin, candidate sequence and (non-negative)
requested count, the ranking operation of src/app.py lines 211-216 returns
a sequence of length `min count |candidates|`, sorted ascending by the
straight-line distance from the origin to each candidate's coordinates,
and each returned row carries exactly that distance for a facility of the
input sequence.  (Line 216 fixes the count to 5; the statement covers
every non-negative count fed to `head`.) -/
theorem C1_rank_length_sorted (geodesic : ℚ × ℚ → ℚ × ℚ → ℚ) (origin : ℚ × ℚ)
    (cands : List Facility) (count : ℤ) (h : 0 ≤ count) :
    (rank geodesic origin cands count).length = min count.toNat cands.length ∧
    (rank geodesic origin cands count).Pairwise distLE ∧
    ∀ r ∈ rank geodesic origin cands count,
      r.facility ∈ cands ∧
      r.geo_dist = geodesic origin (r.facility.latitude, r.facility.longitude) := by
  unfold rank phead
  rw [if_pos h]
  refine ⟨?_, ?_, ?_⟩
  · rw [List.length_take, sortByDist, List.length_insertionSort,
      computeDistances, List.length_map]
  · exact (List.sorted_insertionSort distLE _).sublist (List.take_sublist _ _)
  · intro r hr
    have hr2 : r ∈ sortByDist (computeDistances geodesic origin cands) :=
      List.mem_of_mem_take hr
    have hr3 : r ∈ computeDistances geodesic origin cands :=
      (List.mem_insertionSort distLE).1 hr2
    obtain ⟨f, hf, rfl⟩ := List.mem_map.1 hr3
    exact ⟨hf, rfl⟩

/-- Witness for C1 at a concrete input: three facilities, count 2. -/
theorem C1_witness :
    0 ≤ (2:ℤ) ∧
    ((rank latDist (0,0) [wFacC, wFacA, wFacB] 2).length
        = min (2:ℤ).toNat [wFacC, wFacA, wFacB].length ∧
     (rank latDist (0,0) [wFacC, wFacA, wFacB] 2).Pairwise distLE ∧
     ∀ r ∈ rank latDist (0,0) [wFacC, wFacA, wFacB] 2,
       r.facility ∈ [wFacC, wFacA, wFacB] ∧
       r.geo_dist = latDist (0,0) (r.facility.latitude, r.facility.longitude)) :=
  ⟨by decide, C1_rank_length_sorted latDist (0,0) [wFacC, wFacA, wFacB] 2 (by decide)⟩

/-- Claim C3, counterexample: the claim says a non-positive count fails
with `InvalidParameterError`, but the code (src/app.py lines 211-216) never
validates the count: `sort_values(...).head(count)` at count 0 on a
non-empty candidate sequence returns an ordinary empty result — a normal
value, not a failure — and at count -1 it even returns all but the last
ranked row (pandas `head` semantics), again without any error. -/
theorem C3_counterexample :
    rank latDist (0,0) [wFacA] 0 = [] ∧
    rank latDist (0,0) [wFacA, wFacB, wFacC] (-1) = [⟨wFacA, 1⟩, ⟨wFacB, 2⟩] := by
  constructor <;> decide

/-- Claim C3, amended: the ranking operation performs no count validation
(there is no `InvalidParameterError` anywhere in the code): a count of 0
yields an empty result, a negative count follows pandas `head` semantics
(all rows but the last `|count|`) — never an error — and an empty
candidate sequence yields an empty result for every count. -/
theorem C3_amended :
    (∀ (geodesic : ℚ × ℚ → ℚ × ℚ → ℚ) (origin : ℚ × ℚ) (cands : List Facility),
      rank geodesic origin cands 0 = []) ∧
    (∀ (geodesic : ℚ × ℚ → ℚ × ℚ → ℚ) (origin : ℚ × ℚ) (count : ℤ),
      rank geodesic origin [] count = []) := by
  constructor
  · intro geodesic origin cands
    simp [rank, phead]
  · intro geodesic origin count
    simp [rank, phead, computeDistances, sortByDist, List.insertionSort]

/-- Raw CSV row with out-of-range coordinates (latitude 200) used as the
C4 counterexample. -/
def rawBad : RawRecord := ⟨"Bad", "Primary", "Public", "w", "l", "Oyo", some 200, some 10⟩

/-- The facility that `load_data` builds from `rawBad`. -/
def facBad : Facility := ⟨"Bad", "Primary", "Public", "w", "l", "Oyo", 200, 10⟩

/-- Claim C4, counterexample: the claim says records with out-of-range
coordinates are excluded at load time, but `load_data` (src/app.py
lines 48-50) only drops rows with MISSING coordinates — it performs no
range check.  A row with latitude 200 (beyond 90) survives loading and
reaches the engine. -/
theorem C4_counterexample :
    load_data [rawBad] = [facBad] ∧ ¬ validEarthCoords facBad := by
  constructor <;> decide

/-- Claim C4, amended: records missing latitude or longitude are excluded
at load time — every loaded facility's coordinates originate from present
cells, and exactly the rows with both coordinates present are kept — but
present coordinates are NOT range-checked, so out-of-range values can
reach the engine (see the counterexample). -/
theorem C4_amended (rows : List RawRecord) :
    (load_data rows).length
      = (rows.filter fun r => r.latitude.isSome && r.longitude.isSome).length ∧
    ∀ f ∈ load_data rows, ∃ r ∈ rows,
      r.latitude = some f.latitude ∧ r.longitude = some f.longitude := by
  constructor
  · induction rows with
    | nil => rfl
    | cons r rs ih =>
      simp only [load_data, List.filterMap_cons, List.filter_cons] at ih ⊢
      cases hlat : r.latitude <;> cases hlon : r.longitude <;>
        simp [hlat, hlon, ih]
  · intro f hf
    obtain ⟨r, hr, hok⟩ := List.mem_filterMap.1 hf
    refine ⟨r, hr, ?_⟩
    revert hok
    cases hlat : r.latitude <;> cases hlon : r.longitude <;> simp
    rintro rfl
    exact ⟨rfl, rfl⟩

/-- Witness for C4's amended theorem at a concrete row list, with the
membership hypothesis discharged at the loaded facility. -/
theorem C4_witness :
    (load_data [rawBad]).length
      = ([rawBad].filter fun r => r.latitude.isSome && r.longitude.isSome).length ∧
    ∃ r ∈ [rawBad], r.latitude = some facBad.latitude ∧ r.longitude = some facBad.longitude :=
  ⟨(C4_amended [rawBad]).1, (C4_amended [rawBad]).2 facBad (by decide)⟩

/-- Claim C5: on a geocoding failure — provider error (any exception,
caught by the bare `except:` of src/app.py line 65) or zero results
(line 63 falls through) — `get_coordinates` yields the `(None, None)`
outcome without propagating an exception (it is a total function into
pairs of optional values), and the find handler then takes the
"Address not found" branch (line 242), producing no candidate list at
all (the `FindOutcome.addressNotFound` constructor carries none). -/
theorem C5_geocode_failure (geodesic : ℚ × ℚ → ℚ × ℚ → ℚ) (data : List Facility)
    (confirm_state user_api_key : String) (routeFor : Facility → RouteOutcome) :
    get_coordinates .noMatch = (none, none) ∧
    get_coordinates .providerError = (none, none) ∧
    find_handler .noMatch geodesic data confirm_state user_api_key routeFor
      = .addressNotFound ∧
    find_handler .providerError geodesic data confirm_state user_api_key routeFor
      = .addressNotFound :=
  ⟨rfl, rfl, rfl, rfl⟩

/-- Claim C6: the scoped lookup (src/app.py line 206) returns exactly the
facilities whose `state` equals the queried region under case-sensitive
string equality (in input order), and when no facility matches, the
handler takes the "No facilities found in this state" branch (line 209) —
a rendered error message, not a crash (the handler is a total function
into `FindOutcome`). -/
theorem C6_scoped_lookup (region : String) (data : List Facility) :
    (∀ f, f ∈ scopedLookup region data ↔ f ∈ data ∧ f.state = region) ∧
    (∀ (lat lon : ℚ) (geodesic : ℚ × ℚ → ℚ × ℚ → ℚ)
        (user_api_key : String) (routeFor : Facility → RouteOutcome),
      lat ≠ 0 → scopedLookup region data = [] →
      find_handler (.found lat lon) geodesic data region user_api_key routeFor
        = .noFacilitiesInState) := by
  constructor
  · intro f
    simp [scopedLookup, List.mem_filter]
  · intro lat lon geodesic user_api_key routeFor hlat hempty
    simp [find_handler, get_coordinates, pyTruthy, hlat, hempty]

/-- Witness for C6 at a concrete input: region "Lagos" against a table
holding only an "Oyo" facility. -/
theorem C6_witness :
    ((wFacA ∈ scopedLookup "Lagos" [wFacA] ↔ wFacA ∈ [wFacA] ∧ wFacA.state = "Lagos") ∧
     find_handler (.found 7 3) latDist [wFacA] "Lagos" "" (fun _ => .providerFailure)
       = .noFacilitiesInState) ∧
    (7:ℚ) ≠ 0 ∧ scopedLookup "Lagos" [wFacA] = [] :=
  ⟨⟨(C6_scoped_lookup "Lagos" [wFacA]).1 wFacA,
    (C6_scoped_lookup "Lagos" [wFacA]).2 7 3 latDist "" (fun _ => .providerFailure)
      (by decide) (by decide)⟩,
   by decide, by decide⟩

/-- Claim C7: on any routing-provider failure (auth error, no route,
network error, malformed response — all collapsed into
`RouteOutcome.providerFailure` by the bare `except:` of src/app.py
line 81), `get_drive_time` returns `(None, None)` without raising; the
row display then shows the straight-line `geo_dist` computed at ranking
time, unaltered; and the whole result list still contains every ranked
candidate paired with exactly its ranked straight-line distance. -/
theorem C7_refinement_failure :
    get_drive_time .providerFailure = (none, none) ∧
    (∀ (user_api_key : String) (r : Ranked),
      rowDisplay user_api_key .providerFailure r = (r.facility, .straight r.geo_dist)) ∧
    (∀ (lat lon : ℚ) (geodesic : ℚ × ℚ → ℚ × ℚ → ℚ) (data : List Facility)
        (region user_api_key : String),
      lat ≠ 0 → scopedLookup region data ≠ [] →
      find_handler (.found lat lon) geodesic data region user_api_key
          (fun _ => .providerFailure)
        = .results ((top_5 geodesic (lat, lon) (scopedLookup region data)).map
            fun r => (r.facility, .straight r.geo_dist))) := by
  have hrow : ∀ (user_api_key : String) (r : Ranked),
      rowDisplay user_api_key .providerFailure r = (r.facility, .straight r.geo_dist) := by
    intro user_api_key r
    simp [rowDisplay, enrich, get_drive_time, pyTruthy]
  refine ⟨rfl, hrow, ?_⟩
  intro lat lon geodesic data region user_api_key hlat hne
  have htruthy : pyTruthy (some lat) = true := by simp [pyTruthy, hlat]
  have hempty : (scopedLookup region data).isEmpty = false := by
    simpa [List.isEmpty_iff] using hne
  simp [find_handler, get_coordinates, htruthy, hempty, hrow]

/-- Witness for C7 at a concrete input: one facility, a key supplied, the
provider failing. -/
theorem C7_witness :
    (get_drive_time .providerFailure = (none, none) ∧
     rowDisplay "key" .providerFailure ⟨wFacA, 5⟩ = (wFacA, .straight 5) ∧
     find_handler (.found 7 3) latDist [wFacA] "Oyo" "key" (fun _ => .providerFailure)
       = .results ((top_5 latDist (7, 3) (scopedLookup "Oyo" [wFacA])).map
           fun r => (r.facility, .straight r.geo_dist))) ∧
    (7:ℚ) ≠ 0 ∧ scopedLookup "Oyo" [wFacA] ≠ [] :=
  ⟨⟨C7_refinement_failure.1,
    C7_refinement_failure.2.1 "key" ⟨wFacA, 5⟩,
    C7_refinement_failure.2.2 7 3 latDist [wFacA] "Oyo" "key" (by decide) (by decide)⟩,
   by decide, by decide⟩

/-- Claim C8: with no credential supplied (`st.text_input` yields the
empty — falsy — string, so `if user_api_key:` at src/app.py line 222 is
not taken), the enrichment result stays `(None, None)` for every possible
provider response, no call is interpreted as an error (the function is
total and never raises), and the row is displayed with its straight-line
distance. -/
theorem C8_no_credential (route : RouteOutcome) (r : Ranked) :
    enrich "" route = (none, none) ∧
    rowDisplay "" route r = (r.facility, .straight r.geo_dist) :=
  ⟨rfl, rfl⟩

/-- Claim C9: when geocoding succeeds with latitude exactly 0.0, the
handler still takes the "Address not found" branch, because line 202
(`if u_lat:`) tests the TRUTHINESS of the latitude and `0.0` is falsy in
Python — candidate lookup and ranking are never reached. -/
theorem C9_zero_latitude (lon : ℚ) (geodesic : ℚ × ℚ → ℚ × ℚ → ℚ)
    (data : List Facility) (region user_api_key : String)
    (routeFor : Facility → RouteOutcome) :
    find_handler (.found 0 lon) geodesic data region user_api_key routeFor
      = .addressNotFound :=
  rfl

/-- Claim C10: when the routing provider succeeds with a duration of
exactly 0 seconds, `get_drive_time` returns drive time `0.0` minutes,
which is falsy, so `if drive_mins:` (src/app.py line 232) discards the
refinement and the row is presented with only its straight-line
distance — for every credential and every reported route distance. -/
theorem C10_zero_duration (m : ℚ) (user_api_key : String) (r : Ranked) :
    get_drive_time (.route 0 m) = (some 0, some (m / 1000)) ∧
    rowDisplay user_api_key (.route 0 m) r = (r.facility, .straight r.geo_dist) := by
  have h0 : (0:ℚ) / 60 = 0 := by norm_num
  constructor
  · simp [get_drive_time, h0]
  · cases hk : strTruthy user_api_key <;>
      simp [rowDisplay, enrich, get_drive_time, pyTruthy, hk, h0]
